import Mathlib

/-!
Verification of the comma platform layer (`src/platforms/rcore_comma.c`).

The development shallowly embeds the two CORE components of the file —
the swapchain manager (`SwapScreenBuffer`, lines 915-950) and the touch
aggregator (`PollInputEvents`, lines 1003-1073) — together with the touch
initialisation (`init_touch`, lines 644-688), the shutdown routine
(`ClosePlatform`, lines 1129-1157) and `WindowShouldClose` (lines 706-708).

External collaborators (EGL, GBM, DRM, the kernel input layer) are modelled
at their interface boundary: each fallible call is driven by an oracle bool,
and buffer objects handed out by `gbm_surface_lock_front_buffer` are
identified by natural numbers.
-/

namespace RcoreComma

/-! ## Swapchain manager (`SwapScreenBuffer`, lines 915-950)

The swap state is `struct gbm_platform` restricted to the buffer-object
fields the claims are about (`current_bo`, `next_bo`).  `held` is the ghost
accounting of buffer references: a buffer id enters `held` when
`gbm_surface_lock_front_buffer` hands it out and leaves it when
`gbm_surface_release_buffer` returns it to the surface.  `fresh` is the next
buffer id the surface will hand out; using a counter encodes the GBM
guarantee that `lock_front_buffer` never returns a buffer the caller still
holds locked. -/

structure SwapOracle where
  lockOk : Bool
  fbOk : Bool
  flipOk : Bool
deriving DecidableEq

structure GbmState where
  current_bo : Option Nat
  next_bo : Option Nat
  held : Finset Nat
  fresh : Nat
deriving DecidableEq

/-- The set of buffer references an `Option` field denotes. -/
def heldOf : Option Nat → Finset Nat
  | none => ∅
  | some b => {b}

/-- Shallow embedding of `SwapScreenBuffer` (lines 915-950).  The returned
list records the ghost `held` set after every acquisition/release performed
by the call, so that "references held at any instant" can be bounded.
Control flow mirrors the C source exactly:
1. `gbm_surface_lock_front_buffer` (line 918); on `NULL` log and return
   (`next_bo` holds the `NULL` result).
2. `get_or_create_fb_for_bo` (line 924); on failure release the acquired
   buffer, clear `next_bo`, return.
3. `drmModePageFlip` (line 931); on failure remove the fb, release the
   acquired buffer, clear `next_bo`, return.
4. wait one vblank, release `current_bo` if non-`NULL` (line 945), then
   `current_bo = next_bo` (line 949) — note the C code does NOT clear
   `next_bo` on this success path. -/
def SwapScreenBuffer (o : SwapOracle) (s : GbmState) : GbmState × List (Finset Nat) :=
  match o.lockOk with
  | false => ({ s with next_bo := none }, [s.held])
  | true =>
    let b := s.fresh
    let h1 := insert b s.held
    let s1 : GbmState :=
      { current_bo := s.current_bo, next_bo := some b, held := h1, fresh := s.fresh + 1 }
    match o.fbOk with
    | false => ({ s1 with next_bo := none, held := h1.erase b }, [h1, h1.erase b])
    | true =>
      match o.flipOk with
      | false => ({ s1 with next_bo := none, held := h1.erase b }, [h1, h1.erase b])
      | true =>
        match s.current_bo with
        | some c => ({ s1 with held := h1.erase c, current_bo := some b }, [h1, h1.erase c])
        | none => ({ s1 with current_bo := some b }, [h1])

/-- Run a sequence of `SwapScreenBuffer` calls, concatenating the per-call
ghost traces. -/
def runSwap : List SwapOracle → GbmState → GbmState × List (Finset Nat)
  | [], s => (s, [])
  | o :: os, s =>
    let r := SwapScreenBuffer o s
    let rest := runSwap os r.1
    (rest.1, r.2 ++ rest.2)

/-- The swap state right after `init_screen` (lines 607-642): the bootstrap
buffer (id `0`) has been locked and bound to the CRTC as `current_bo`. -/
def initGbmState : GbmState :=
  { current_bo := some 0, next_bo := none, held := {0}, fresh := 1 }

/-- Largest cardinality appearing in a trace of held-reference sets. -/
def maxHeld (l : List (Finset Nat)) : Nat :=
  l.foldr (fun h m => max h.card m) 0

/-- Invariant of the swap state between `SwapScreenBuffer` calls: the ghost
held set is exactly the currently displayed buffer, every held id is below
the freshness counter, and `next_bo` is either `NULL` or an alias of
`current_bo` (the success path of the C code promotes without clearing). -/
def GbmInv (s : GbmState) : Prop :=
  s.held = heldOf s.current_bo ∧ (∀ b ∈ s.held, b < s.fresh) ∧
    (s.next_bo = none ∨ s.next_bo = s.current_bo)

/-! ## Touch aggregator (`PollInputEvents`, lines 1003-1073)

`struct finger` (lines 82-87) and the per-slot state machine.  Per-slot
arrays (`fingers`, `currentTouchState`, `previousTouchState`, `position`)
are modelled as total maps `Nat → _`; the C loops of the form
`for (i = 0; i < MAX_TOUCH_POINTS; ++i)` have bodies that read and write
only index `i` (plus the mouse mirror at `i == 0`), so each loop is embedded
as the equivalent pointwise map over indices below `MAX_TOUCH_POINTS`. -/

/-- `MAX_TOUCH_POINTS` is a raylib configuration constant (default 8 in
raylib's `config.h`; it is not defined in this platform file). -/
def MAX_TOUCH_POINTS : Nat := 8

/-- `FingerState` (lines 76-80). -/
inductive FingerState
  | removed
  | removing
  | touching
deriving DecidableEq

/-- `struct finger` (lines 82-87). -/
structure Finger where
  state : FingerState
  x : Int
  y : Int
  resetNextFrame : Bool

/-- The process-lifetime configuration the aggregator reads:
`platform.canonical_zero` and `CORE.Window.screen.{width,height}`. -/
structure TouchCfg where
  canonical_zero : Bool
  screenW : Int
  screenH : Int

/-- The mutable state `PollInputEvents` reads and writes:
`platform.touch.fingers`, the function-local `static int slot` cursor
(line 1005), and the published `CORE.Input` touch/mouse snapshot. -/
structure TState where
  fingers : Nat → Finger
  slot : Nat
  cur : Nat → Nat
  prev : Nat → Nat
  pos : Nat → Int × Int
  pointCount : Nat
  mouse : Int × Int
  mousePrev : Int × Int

/-- The raw `struct input_event` records the drain loop distinguishes
(lines 1025-1065): `SYN_REPORT`, the four `EV_ABS` codes, and `other` for
every record the code ignores. -/
inductive TouchEvent
  | synReport
  | absSlot (v : Nat)
  | absTracking (v : Int)
  | absPosX (v : Int)
  | absPosY (v : Int)
  | other
deriving DecidableEq

/-- The loop at lines 1007-1014: copy each slot's current bit to the
previous bitmap, then age out the forced-clear flags set by a previous
poll's same-frame collapse (clear the bit and the flag). -/
def agePhase (s : TState) : TState :=
  { s with
    prev := fun i => if i < MAX_TOUCH_POINTS then s.cur i else s.prev i,
    cur := fun i =>
      if i < MAX_TOUCH_POINTS ∧ (s.fingers i).resetNextFrame then 0 else s.cur i,
    fingers := fun i =>
      if i < MAX_TOUCH_POINTS then { s.fingers i with resetNextFrame := false }
      else s.fingers i }

/-- The `SYN_REPORT` branch (lines 1025-1053): publish every `Touching`
slot's coordinates and bit (mirroring slot 0 onto the mouse position), and
apply the same-frame collapse rule to every `Removing` slot — if its
previous bit was 0 publish it active and mark it `resetNextFrame`,
otherwise publish it inactive; either way return it to `Removed`. -/
def synStep (s : TState) : TState :=
  { s with
    pos := fun i =>
      if i < MAX_TOUCH_POINTS ∧ (s.fingers i).state = FingerState.touching then
        ((s.fingers i).x, (s.fingers i).y)
      else s.pos i,
    cur := fun i =>
      if i < MAX_TOUCH_POINTS then
        match (s.fingers i).state with
        | FingerState.touching => 1
        | FingerState.removing => if s.prev i = 0 then 1 else 0
        | FingerState.removed => s.cur i
      else s.cur i,
    fingers := fun i =>
      if i < MAX_TOUCH_POINTS ∧ (s.fingers i).state = FingerState.removing then
        { s.fingers i with
            state := FingerState.removed,
            resetNextFrame := if s.prev i = 0 then true else (s.fingers i).resetNextFrame }
      else s.fingers i,
    mouse :=
      if 0 < MAX_TOUCH_POINTS ∧ (s.fingers 0).state = FingerState.touching then
        ((s.fingers 0).x, (s.fingers 0).y)
      else s.mouse }

/-- One iteration of the drain loop (lines 1024-1067).  The `EV_ABS`
branches write through the persistent `slot` cursor; the two position
branches apply the orientation transform exactly as written in lines
1062 and 1064 (the C bool `canonical_zero` is used as a 0/1 coefficient):
`ABS_MT_POSITION_X` feeds `y = (1-cz)*(H-v) + cz*v` and
`ABS_MT_POSITION_Y` feeds `x = cz*(W-v) + (1-cz)*v`. -/
def evStep (cfg : TouchCfg) (t : TState) (e : TouchEvent) : TState :=
  match e with
  | .synReport => synStep t
  | .absSlot v => { t with slot := v }
  | .absTracking v =>
      let f := t.fingers t.slot
      let f2 := { f with state := if v = -1 then FingerState.removing else FingerState.touching }
      { t with fingers := Function.update t.fingers t.slot f2 }
  | .absPosX v =>
      let f := t.fingers t.slot
      let f2 := { f with y := if cfg.canonical_zero then v else cfg.screenH - v }
      { t with fingers := Function.update t.fingers t.slot f2 }
  | .absPosY v =>
      let f := t.fingers t.slot
      let f2 := { f with x := if cfg.canonical_zero then cfg.screenW - v else v }
      { t with fingers := Function.update t.fingers t.slot f2 }
  | .other => t

/-- The counting loop at lines 1070-1072: number of slots left in
`Touching` state after the whole drain. -/
def countTouching (s : TState) : Nat :=
  (List.range MAX_TOUCH_POINTS).countP
    (fun i => decide ((s.fingers i).state = FingerState.touching))

/-- Lines 1007-1021: the age/copy loops, the mouse previous-position copy
and the `pointCount = 0` reset that precede the drain. -/
def pollPrep (s : TState) : TState :=
  let s1 := agePhase s
  { s1 with mousePrev := s1.mouse, pointCount := 0 }

/-- The state after draining `evs` in one invocation (the `while read`
loop, lines 1024-1067), before the final count. -/
def drainState (cfg : TouchCfg) (evs : List TouchEvent) (s : TState) : TState :=
  List.foldl (evStep cfg) (pollPrep s) evs

/-- Shallow embedding of one `PollInputEvents` invocation (lines
1003-1073) draining the raw records `evs`.  (The mouse-button copy loop at
lines 1016-1018 touches state no claim mentions and is omitted.) -/
def PollInputEvents (cfg : TouchCfg) (evs : List TouchEvent) (s : TState) : TState :=
  let s3 := drainState cfg evs s
  { s3 with pointCount := countTouching s3 }

/-- Per-slot state set up by `init_touch` (lines 667-672). -/
def initFinger : Finger :=
  { state := FingerState.removed, x := -1, y := -1, resetNextFrame := false }

/-- The aggregator state right after `init_touch` (lines 667-686): fingers
at (-1,-1) and `Removed`, published bitmaps zero (static zero-initialised
CORE state), mouse at (-1,-1). -/
def initTState : TState :=
  { fingers := fun _ => initFinger, slot := 0,
    cur := fun _ => 0, prev := fun _ => 0,
    pos := fun _ => (0, 0), pointCount := 0,
    mouse := (-1, -1), mousePrev := (-1, -1) }

/-- A concrete configuration used by closed computations: non-inverted
panel, 100x50 screen. -/
def cfg0 : TouchCfg := { canonical_zero := false, screenW := 100, screenH := 50 }

/-- True for every raw record that is not a synchronization marker. -/
def notSyn : TouchEvent → Bool
  | .synReport => false
  | _ => true

/-- One batch in which slot `i` receives a tracking-begin (id `v`) and a
tracking-end, closed by a synchronization marker. -/
def downUpBatch (i : Nat) (v : Int) : List TouchEvent :=
  [.absSlot i, .absTracking v, .absTracking (-1), .synReport]

/-- One batch in which slot `i` begins a contact and reports raw positions
`a` (axis `ABS_MT_POSITION_X`) and `b` (axis `ABS_MT_POSITION_Y`), closed
by a synchronization marker. -/
def placeBatch (i : Nat) (a b : Int) : List TouchEvent :=
  [.absSlot i, .absTracking 7, .absPosX a, .absPosY b, .synReport]

/-- The two-slot reference scenario, frame 1: slot 0 touches down at raw
position (10, 20). -/
def c4frame1 : TState := PollInputEvents cfg0 (placeBatch 0 10 20) initTState

/-- Frame 2: slot 1 begins and ends a contact within the same batch while
slot 0 stays down. -/
def c4frame2 : TState := PollInputEvents cfg0 (downUpBatch 1 43) c4frame1

/-- Frame 3: a bare synchronization marker; slot 0 is still down. -/
def c4frame3 : TState := PollInputEvents cfg0 [TouchEvent.synReport] c4frame2

/-! ## `WindowShouldClose` (lines 706-708) -/

/-- `WindowShouldClose` reads no state and returns `false` unconditionally. -/
def WindowShouldClose : Bool := false

/-! ## Orientation identifier file (`init_touch`, lines 651-665) -/

/-- The three conditions `init_touch` distinguishes when reading the som_id
orientation file: `fopen` returns `NULL`, `fscanf` fails to parse a single
integer, or an integer `origin` is parsed. -/
inductive SomIdFile
  | absent
  | unparsable
  | parsed (origin : Int)

/-- Lines 651-665 of `init_touch`: `some cz` means the function proceeds
with `platform.canonical_zero = cz`; `none` means it returns `-1`, which
`InitPlatform` (lines 1104-1107) treats as fatal.  An absent file logs and
defaults to `false`; an unparsable file logs and returns `-1`; a parsed
integer sets `canonical_zero` to `origin == 1`. -/
def readScreenOrigin : SomIdFile → Option Bool
  | .absent => some false
  | .unparsable => none
  | .parsed origin => some (origin == 1)

/-- Whether the som_id read path emits a warning log line. -/
def screenOriginWarned : SomIdFile → Bool
  | .absent => true
  | .unparsable => true
  | .parsed _ => false

/-! ## Shutdown (`ClosePlatform`, lines 1129-1157)

Handles are `Option Nat` (`none` is the `NULL` / `EGL_NO_*` sentinel); the
touch file descriptor is a raw `Int` because the C code keeps it as a plain
`int` with no sentinel convention (`0` from static zero-initialisation if
`init_touch` never ran, `-1` if its `open` failed). -/

/-- The destruction calls `ClosePlatform` can issue, with the handles they
target. -/
inductive CloseAction
  | eglMakeCurrentDetach (d : Nat)
  | eglDestroySurface (d s : Nat)
  | eglDestroyContext (d c : Nat)
  | eglTerminate (d : Nat)
  | gbmReleaseBuffer (surf bo : Nat)
  | gbmDeviceDestroy (dev : Nat)
  | closeFd (fd : Int)
deriving DecidableEq

/-- The resource handles `ClosePlatform` touches. -/
structure PlatformHandles where
  eglDisplay : Option Nat
  eglSurface : Option Nat
  eglContext : Option Nat
  gbmDevice : Option Nat
  gbmSurface : Option Nat
  nextBo : Option Nat
  touchFd : Int
deriving DecidableEq

/-- Shallow embedding of `ClosePlatform` (lines 1129-1157): returns the
final handle state and the ordered list of destruction calls issued.
Mirrors the C control flow exactly: the EGL block guarded by
`display != EGL_NO_DISPLAY` (with inner surface/context guards), then the
buffer release guarded by `gbm.surface && gbm.next_bo`, then the gbm device
destruction guarded by `gbm.device`, then an unconditional
`close(platform.touch.fd)`. -/
def ClosePlatform (p : PlatformHandles) : PlatformHandles × List CloseAction :=
  let step1 : PlatformHandles × List CloseAction :=
    match p.eglDisplay with
    | some d =>
      let acts0 := [CloseAction.eglMakeCurrentDetach d]
      let s1 : PlatformHandles × List CloseAction :=
        match p.eglSurface with
        | some srf =>
            ({ p with eglSurface := none }, acts0 ++ [CloseAction.eglDestroySurface d srf])
        | none => (p, acts0)
      let s2 : PlatformHandles × List CloseAction :=
        match s1.1.eglContext with
        | some c =>
            ({ s1.1 with eglContext := none }, s1.2 ++ [CloseAction.eglDestroyContext d c])
        | none => s1
      ({ s2.1 with eglDisplay := none }, s2.2 ++ [CloseAction.eglTerminate d])
    | none => (p, [])
  let step2 : PlatformHandles × List CloseAction :=
    match step1.1.gbmSurface, step1.1.nextBo with
    | some srf, some bo => (step1.1, step1.2 ++ [CloseAction.gbmReleaseBuffer srf bo])
    | _, _ => step1
  let step3 : PlatformHandles × List CloseAction :=
    match step2.1.gbmDevice with
    | some dev =>
        ({ step2.1 with gbmDevice := none }, step2.2 ++ [CloseAction.gbmDeviceDestroy dev])
    | none => step2
  (step3.1, step3.2 ++ [CloseAction.closeFd step3.1.touchFd])

/-- Whether a destruction call only targets handles that exist in the
pre-shutdown state `p`.  The `closeFd` case records that the C code closes
whatever integer is in `platform.touch.fd`, guarded by nothing. -/
def guardedActionB (p : PlatformHandles) : CloseAction → Bool
  | .eglMakeCurrentDetach d => decide (p.eglDisplay = some d)
  | .eglDestroySurface d s => decide (p.eglDisplay = some d) && decide (p.eglSurface = some s)
  | .eglDestroyContext d c => decide (p.eglDisplay = some d) && decide (p.eglContext = some c)
  | .eglTerminate d => decide (p.eglDisplay = some d)
  | .gbmReleaseBuffer surf bo =>
      decide (p.gbmSurface = some surf) && decide (p.nextBo = some bo)
  | .gbmDeviceDestroy dev => decide (p.gbmDevice = some dev)
  | .closeFd fd => decide (fd = p.touchFd)

/-- The handle state when `InitPlatform` failed before opening anything:
all pointers are static-zero (`NULL` sentinels) and `platform.touch.fd` is
the static-zero integer `0` — a descriptor this code never created. -/
def uninitHandles : PlatformHandles :=
  { eglDisplay := none, eglSurface := none, eglContext := none,
    gbmDevice := none, gbmSurface := none, nextBo := none, touchFd := 0 }

theorem heldOf_card_le (o : Option Nat) : (heldOf o).card ≤ 1 := by
  cases o <;> simp [heldOf]

theorem swap_inv (o : SwapOracle) (s : GbmState) (h : GbmInv s) :
    GbmInv (SwapScreenBuffer o s).1 ∧ ∀ t ∈ (SwapScreenBuffer o s).2, t.card ≤ 2 := by
  obtain ⟨hheld, hfresh, _⟩ := h
  have hnotmem : s.fresh ∉ s.held := fun hm => lt_irrefl s.fresh (hfresh _ hm)
  have hcard : s.held.card ≤ 1 := hheld ▸ heldOf_card_le s.current_bo
  have hinsert : (insert s.fresh s.held).card ≤ 2 := by
    calc (insert s.fresh s.held).card ≤ s.held.card + 1 := Finset.card_insert_le _ _
    _ ≤ 2 := by omega
  have herase : (insert s.fresh s.held).erase s.fresh = s.held :=
    Finset.erase_insert hnotmem
  rcases o with ⟨lockOk, fbOk, flipOk⟩
  cases lockOk with
  | false =>
    refine ⟨⟨hheld, hfresh, Or.inl rfl⟩, ?_⟩
    intro t ht
    simp only [SwapScreenBuffer, List.mem_singleton] at ht
    subst ht; omega
  | true =>
    cases fbOk with
    | false =>
      refine ⟨⟨?_, ?_, Or.inl rfl⟩, ?_⟩
      · simpa [SwapScreenBuffer, herase] using hheld
      · simp only [SwapScreenBuffer, herase]
        exact fun b hb => Nat.lt_succ_of_lt (hfresh b hb)
      · intro t ht
        simp only [SwapScreenBuffer, List.mem_cons, List.mem_singleton,
          List.not_mem_nil, or_false] at ht
        rcases ht with rfl | rfl
        · exact hinsert
        · rw [herase]; omega
    | true =>
      cases flipOk with
      | false =>
        refine ⟨⟨?_, ?_, Or.inl rfl⟩, ?_⟩
        · simpa [SwapScreenBuffer, herase] using hheld
        · simp only [SwapScreenBuffer, herase]
          exact fun b hb => Nat.lt_succ_of_lt (hfresh b hb)
        · intro t ht
          simp only [SwapScreenBuffer, List.mem_cons, List.mem_singleton,
            List.not_mem_nil, or_false] at ht
          rcases ht with rfl | rfl
          · exact hinsert
          · rw [herase]; omega
      | true =>
        cases hcur : s.current_bo with
        | none =>
          have hh : s.held = ∅ := by simpa [heldOf, hcur] using hheld
          refine ⟨⟨?_, ?_, Or.inr ?_⟩, ?_⟩
          · simp [SwapScreenBuffer, hcur, hh, heldOf]
          · simp only [SwapScreenBuffer, hcur, hh]
            intro b hb
            simp only [insert_emptyc_eq, Finset.mem_singleton] at hb
            omega
          · simp [SwapScreenBuffer, hcur]
          · intro t ht
            simp only [SwapScreenBuffer, hcur, List.mem_singleton,
              List.mem_cons, List.not_mem_nil, or_false] at ht
            subst ht; exact hinsert
        | some c =>
          have hh : s.held = {c} := by simpa [heldOf, hcur] using hheld
          have hc : c < s.fresh := hfresh c (by simp [hh])
          have hcne : s.fresh ≠ c := fun he => by omega
          have herase2 : (insert s.fresh s.held).erase c = {s.fresh} := by
            rw [hh, Finset.erase_insert_of_ne hcne]
            simp
          refine ⟨⟨?_, ?_, Or.inr ?_⟩, ?_⟩
          · simp [SwapScreenBuffer, hcur, herase2, heldOf]
          · simp only [SwapScreenBuffer, hcur, herase2]
            intro b hb
            simp only [Finset.mem_singleton] at hb
            omega
          · simp [SwapScreenBuffer, hcur]
          · intro t ht
            simp only [SwapScreenBuffer, hcur, List.mem_cons, List.mem_singleton,
              List.not_mem_nil, or_false] at ht
            rcases ht with rfl | rfl
            · exact hinsert
            · rw [herase2]; simp

theorem maxHeld_le_iff (l : List (Finset Nat)) (n : Nat) :
    maxHeld l ≤ n ↔ ∀ t ∈ l, t.card ≤ n := by
  induction l with
  | nil => simp [maxHeld]
  | cons h t ih =>
    simp only [maxHeld, List.foldr_cons, max_le_iff, List.mem_cons] at *
    constructor
    · rintro ⟨h1, h2⟩ x (rfl | hx)
      · exact h1
      · exact ih.mp h2 x hx
    · intro hx
      exact ⟨hx _ (Or.inl rfl), ih.mpr fun x h => hx x (Or.inr h)⟩

theorem maxHeld_append (a b : List (Finset Nat)) :
    maxHeld (a ++ b) = max (maxHeld a) (maxHeld b) := by
  induction a with
  | nil => simp [maxHeld]
  | cons h t ih => simp [maxHeld, List.foldr_append] at *; rw [ih]; omega

theorem runSwap_inv (os : List SwapOracle) (s : GbmState) (h : GbmInv s) :
    GbmInv (runSwap os s).1 ∧ maxHeld (runSwap os s).2 ≤ 2 := by
  induction os generalizing s with
  | nil => exact ⟨h, by simp [runSwap, maxHeld]⟩
  | cons o os ih =>
    obtain ⟨h1, h2⟩ := swap_inv o s h
    obtain ⟨h3, h4⟩ := ih (SwapScreenBuffer o s).1 h1
    refine ⟨h3, ?_⟩
    simp only [runSwap, maxHeld_append]
    exact max_le ((maxHeld_le_iff _ _).mpr h2) h4

theorem initGbmState_inv : GbmInv initGbmState := by
  refine ⟨by simp [initGbmState, heldOf], ?_, Or.inl rfl⟩
  intro b hb
  simp only [initGbmState, Finset.mem_singleton] at hb ⊢
  omega

theorem foldl_notSyn_flag (cfg : TouchCfg) :
    ∀ (evs : List TouchEvent), evs.all notSyn = true → ∀ (u : TState) (j : Nat),
    ((List.foldl (evStep cfg) u evs).fingers j).resetNextFrame
      = (u.fingers j).resetNextFrame := by
  intro evs
  induction evs with
  | nil => intro _ u j; rfl
  | cons e es ih =>
    intro hns u j
    simp only [List.all_cons, Bool.and_eq_true] at hns
    rw [List.foldl_cons, ih hns.2]
    cases e with
    | synReport => simp [notSyn] at hns
    | absSlot v => rfl
    | absTracking v =>
      simp only [evStep]
      by_cases hj : j = u.slot
      · subst hj; rw [Function.update_same]
      · rw [Function.update_noteq hj]
    | absPosX v =>
      simp only [evStep]
      by_cases hj : j = u.slot
      · subst hj; rw [Function.update_same]
      · rw [Function.update_noteq hj]
    | absPosY v =>
      simp only [evStep]
      by_cases hj : j = u.slot
      · subst hj; rw [Function.update_same]
      · rw [Function.update_noteq hj]
    | other => rfl

/-! ## Claims -/

/-- Claim C1: over any sequence of `SwapScreenBuffer` calls from the
initialized state, including calls failing at the buffer-acquisition,
framebuffer-creation or page-flip step, the swapchain manager ends holding
exactly the currently displayed buffer (0 or 1 references, here always the
one current buffer), every acquired buffer is promoted or released, and at
no instant during any call are more than two buffer references held. -/
theorem swapchain_no_buffer_leak (os : List SwapOracle) :
    (runSwap os initGbmState).1.held.card ≤ 1 ∧
    (runSwap os initGbmState).1.held = heldOf (runSwap os initGbmState).1.current_bo ∧
    maxHeld (runSwap os initGbmState).2 ≤ 2 := by
  obtain ⟨⟨h1, _, _⟩, h4⟩ := runSwap_inv os initGbmState initGbmState_inv
  exact ⟨h1 ▸ heldOf_card_le _, h1, h4⟩

/-- Claim C6 (corrected), counterexample: after a fully successful
`SwapScreenBuffer` call — no present in flight any more — `next_bo` is not
empty: the success path (line 949) promotes `next_bo` to `current_bo`
without clearing `next_bo`, so it still aliases the displayed buffer. -/
theorem next_bo_nonempty_after_success :
    (SwapScreenBuffer ⟨true, true, true⟩ initGbmState).1.next_bo = some 1 ∧
    ¬((SwapScreenBuffer ⟨true, true, true⟩ initGbmState).1.next_bo = none) := by
  constructor <;> decide

/-- Claim C6 (amended): between `SwapScreenBuffer` calls, `next_bo` never
references a buffer distinct from the current one — it is either empty
(initially and after a call failing at any step) or an alias of
`current_bo` (after a successful call, which promotes without clearing). -/
theorem next_bo_none_or_alias (os : List SwapOracle) :
    (runSwap os initGbmState).1.next_bo = none ∨
    (runSwap os initGbmState).1.next_bo = (runSwap os initGbmState).1.current_bo :=
  (runSwap_inv os initGbmState initGbmState_inv).1.2.2

/-- Claim C2: a slot receiving a tracking-begin and tracking-end inside one
sync batch, whose published bit was 0 before the poll, is reported active
with its forced-clear flag set by the poll that processes the batch, and
the immediately following invocation — draining no events at all — reports
it inactive, because flags are aged out at the start of each invocation. -/
theorem synthetic_one_frame_touch (cfg : TouchCfg) (s : TState) (i : Nat) (v : Int)
    (hi : i < MAX_TOUCH_POINTS) (hv : ¬(v = -1)) (h0 : s.cur i = 0) :
    (PollInputEvents cfg (downUpBatch i v) s).cur i = 1 ∧
    ((PollInputEvents cfg (downUpBatch i v) s).fingers i).resetNextFrame = true ∧
    (PollInputEvents cfg [] (PollInputEvents cfg (downUpBatch i v) s)).cur i = 0 := by
  simp [PollInputEvents, drainState, pollPrep, agePhase, evStep, synStep,
    downUpBatch, countTouching, hi, hv, h0]

theorem synthetic_one_frame_touch_witness :
    ((0 : Nat) < MAX_TOUCH_POINTS ∧ ¬((7 : Int) = -1) ∧ initTState.cur 0 = 0) ∧
    ((PollInputEvents cfg0 (downUpBatch 0 7) initTState).cur 0 = 1 ∧
     ((PollInputEvents cfg0 (downUpBatch 0 7) initTState).fingers 0).resetNextFrame = true ∧
     (PollInputEvents cfg0 [] (PollInputEvents cfg0 (downUpBatch 0 7) initTState)).cur 0 = 0) :=
  ⟨⟨by decide, by decide, by decide⟩,
   synthetic_one_frame_touch cfg0 initTState 0 7 (by decide) (by decide) (by decide)⟩

/-- Claim C3 (corrected), counterexample: with `canonicalZero = false` the
claim predicts that raw axis-A value `v = 0` maps to reported Y coordinate
`0`; the code (line 1062) maps it to `screenH - 0 = 50` instead — axis A is
inverted exactly when `canonicalZero` is false, the opposite of the claim. -/
theorem orientation_claim_false_on_axis_a :
    ((PollInputEvents cfg0 (placeBatch 0 0 0) initTState).pos 0).2 = 50 ∧
    ¬(((PollInputEvents cfg0 (placeBatch 0 0 0) initTState).pos 0).2 = 0) := by
  constructor <;> decide

/-- Claim C3 (amended): the raw axis-B value `b` feeds the reported X
coordinate as `b` when `canonicalZero = false` and `screenW - b` when
`canonicalZero = true` (as the claim states), but the raw axis-A value `a`
feeds the reported Y coordinate with the opposite convention:
`screenH - a` when `canonicalZero = false` and `a` when it is true.  This
holds for all values, in particular the boundaries 0 and the dimension. -/
theorem orientation_transform (cfg : TouchCfg) (s : TState) (i : Nat) (a b : Int)
    (hi : i < MAX_TOUCH_POINTS) :
    (PollInputEvents cfg (placeBatch i a b) s).pos i =
      (if cfg.canonical_zero then cfg.screenW - b else b,
       if cfg.canonical_zero then a else cfg.screenH - a) := by
  simp [PollInputEvents, drainState, pollPrep, agePhase, evStep, synStep,
    placeBatch, countTouching, hi]

theorem orientation_transform_witness :
    (0 : Nat) < MAX_TOUCH_POINTS ∧
    (PollInputEvents cfg0 (placeBatch 0 0 100) initTState).pos 0 = (100, 50) :=
  ⟨by decide, by simpa [cfg0] using orientation_transform cfg0 initTState 0 0 100 (by decide)⟩

/-- Claim C4 (corrected), counterexample: in the two-slot scenario — slot 0
sustained across frames 1-3, slot 1 synthetic begin+end inside frame 2's
batch — the published point count of frame 2 is 1, not the claimed 2: the
synthetic slot is already back in `Removed` state when the counting loop
runs, so it never enters the `Touching` count. -/
theorem point_count_frame2_not_two : ¬(c4frame2.pointCount = 2) := by decide

/-- Claim C4 (amended): the scenario's published point counts for frames
1, 2, 3 are [1, 1, 1]; slot 1 contributes to the active bitmap in frame 2
only (bit 1 in frame 2, bit 0 in frames 1 and 3) and never contributes to
the point count, while sustained slot 0 is counted in every frame. -/
theorem point_count_sequence :
    c4frame1.pointCount = 1 ∧ c4frame2.pointCount = 1 ∧ c4frame3.pointCount = 1 ∧
    c4frame1.cur 1 = 0 ∧ c4frame2.cur 1 = 1 ∧ c4frame3.cur 1 = 0 ∧
    c4frame2.cur 0 = 1 ∧ c4frame3.cur 0 = 1 := by
  refine ⟨?_, ?_, ?_, ?_, ?_, ?_, ?_, ?_⟩ <;> decide

/-- Claim C5 (corrected), counterexample: when the drain does not end at
the synchronization marker, the published count disagrees with the claim.
Here the drained records are a begin batch, its marker, then a trailing
tracking-end: after the last marker slot 0 is `Touching` (count 1, the
claim's value), but the published `pointCount` is 0 because the counting
loop runs only after all drained records, including the trailing end. -/
theorem point_count_after_marker_false :
    countTouching (drainState cfg0
      [TouchEvent.absSlot 0, TouchEvent.absTracking 7, TouchEvent.synReport]
      initTState) = 1 ∧
    (PollInputEvents cfg0
      [TouchEvent.absSlot 0, TouchEvent.absTracking 7, TouchEvent.synReport,
       TouchEvent.absTracking (-1)]
      initTState).pointCount = 0 := by
  constructor <;> decide

/-- Claim C5 (amended): after every invocation the published point count
equals the number of slots in `Touching` state after all drained events are
processed (which is the state after the last marker whenever the drain ends
at that marker); and in a drain consisting of one marker-terminated batch,
a slot left pending forced-clear is back in `Removed` state, hence not
included in the count. -/
theorem point_count_counts_touching (cfg : TouchCfg) (evs : List TouchEvent) (s : TState)
    (i : Nat) (hi : i < MAX_TOUCH_POINTS) (hns : evs.all notSyn = true) :
    (PollInputEvents cfg evs s).pointCount = countTouching (PollInputEvents cfg evs s) ∧
    (((PollInputEvents cfg (evs ++ [TouchEvent.synReport]) s).fingers i).resetNextFrame = true →
      ¬(((PollInputEvents cfg (evs ++ [TouchEvent.synReport]) s).fingers i).state
          = FingerState.touching)) := by
  constructor
  · rfl
  · have hbase : (((pollPrep s).fingers i).resetNextFrame) = false := by
      simp [pollPrep, agePhase, hi]
    have hdrain : ((drainState cfg evs s).fingers i).resetNextFrame = false := by
      rw [drainState, foldl_notSyn_flag cfg evs hns (pollPrep s) i]
      exact hbase
    have hsplit : drainState cfg (evs ++ [TouchEvent.synReport]) s
        = synStep (drainState cfg evs s) := by
      simp [drainState, List.foldl_append, evStep]
    intro hflag
    simp only [PollInputEvents, hsplit] at hflag ⊢
    simp only [synStep] at hflag ⊢
    by_cases hc : i < MAX_TOUCH_POINTS ∧
        ((drainState cfg evs s).fingers i).state = FingerState.removing
    · simp [hc]
    · simp only [hc, if_neg, if_false] at hflag
      rw [hflag] at hdrain
      exact absurd hdrain (by simp)

theorem point_count_counts_touching_witness :
    ((0 : Nat) < MAX_TOUCH_POINTS ∧
      ([TouchEvent.absSlot 0, TouchEvent.absTracking 7,
        TouchEvent.absTracking (-1)].all notSyn = true)) ∧
    ((PollInputEvents cfg0 [TouchEvent.absSlot 0, TouchEvent.absTracking 7,
        TouchEvent.absTracking (-1)] initTState).pointCount =
      countTouching (PollInputEvents cfg0 [TouchEvent.absSlot 0, TouchEvent.absTracking 7,
        TouchEvent.absTracking (-1)] initTState) ∧
     (((PollInputEvents cfg0 ([TouchEvent.absSlot 0, TouchEvent.absTracking 7,
          TouchEvent.absTracking (-1)] ++ [TouchEvent.synReport]) initTState).fingers 0).resetNextFrame = true →
       ¬(((PollInputEvents cfg0 ([TouchEvent.absSlot 0, TouchEvent.absTracking 7,
            TouchEvent.absTracking (-1)] ++ [TouchEvent.synReport]) initTState).fingers 0).state
           = FingerState.touching))) :=
  ⟨⟨by decide, by decide⟩,
   point_count_counts_touching cfg0
     [TouchEvent.absSlot 0, TouchEvent.absTracking 7, TouchEvent.absTracking (-1)]
     initTState 0 (by decide) (by decide)⟩

/-- Claim C7 (corrected), counterexample: the claim says unparsable content
of the orientation identifier file is treated like an absent file (logged,
default orientation, init succeeds); in the code an unparsable file makes
`init_touch` return `-1` (line 658), which `InitPlatform` treats as fatal
(lines 1104-1107) — the failure IS propagated. -/
theorem unparsable_origin_is_fatal :
    readScreenOrigin SomIdFile.unparsable = none ∧
    screenOriginWarned SomIdFile.unparsable = true := ⟨rfl, rfl⟩

/-- Claim C7 (amended): an absent orientation file is logged and treated as
the non-inverted default with `init_touch` succeeding; an unparsable file
is logged but makes `init_touch` fail, which `InitPlatform` propagates as a
fatal error; a parsed integer sets `canonicalZero` to whether it equals 1. -/
theorem origin_file_handling :
    (readScreenOrigin SomIdFile.absent = some false ∧
     screenOriginWarned SomIdFile.absent = true) ∧
    readScreenOrigin SomIdFile.unparsable = none ∧
    ∀ o : Int, readScreenOrigin (SomIdFile.parsed o) = some (o == 1) :=
  ⟨⟨rfl, rfl⟩, rfl, fun _ => rfl⟩

/-- Claim C8 (corrected), counterexample: shutdown from the
never-initialized state (all handles static-zero) still issues
`close(0)` — the touch file descriptor is the one handle `ClosePlatform`
touches without a sentinel guard, closing a descriptor this code never
created; moreover the shutdown does not begin by releasing the next buffer
(EGL teardown comes first in the code). -/
theorem close_platform_unguarded_fd :
    (ClosePlatform uninitHandles).2 = [CloseAction.closeFd 0] := by decide

/-- Claim C8 (amended): shutdown from any (partially initialized) state is
a total function that touches the EGL display/surface/context, next-buffer
and gbm-device handles only behind their null/empty sentinel guards, but it
always closes the raw touch file descriptor unconditionally, whatever
integer it holds; the buffer release happens after EGL teardown rather than
first. -/
theorem close_platform_guarded (p : PlatformHandles) :
    (ClosePlatform p).2.all (guardedActionB p) = true ∧
    CloseAction.closeFd p.touchFd ∈ (ClosePlatform p).2 := by
  obtain ⟨ed, es, ec, gd, gs, nb, fd⟩ := p
  cases ed <;> cases es <;> cases ec <;> cases gd <;> cases gs <;> cases nb <;>
    simp [ClosePlatform, guardedActionB]

/-- Claim C9: the `static int slot` cursor of `PollInputEvents` (line 1005)
persists across invocations: after an invocation whose last slot-select
event chose slot 3, a following invocation that drains tracking events
before any new slot-select applies them to slot 3. -/
theorem slot_cursor_persists :
    (PollInputEvents cfg0 [TouchEvent.absSlot 3] initTState).slot = 3 ∧
    ((PollInputEvents cfg0 [TouchEvent.absTracking 7, TouchEvent.synReport]
        (PollInputEvents cfg0 [TouchEvent.absSlot 3] initTState)).fingers 3).state
      = FingerState.touching ∧
    (PollInputEvents cfg0 [TouchEvent.absTracking 7, TouchEvent.synReport]
        (PollInputEvents cfg0 [TouchEvent.absSlot 3] initTState)).cur 3 = 1 := by
  refine ⟨?_, ?_, ?_⟩ <;> decide

/-- Claim C10: `WindowShouldClose` reads no state and always returns
`false`; the platform layer never signals that the application should
close. -/
theorem window_should_close_always_false : WindowShouldClose = false := rfl

end RcoreComma
